import Mathlib

/-!
Verification development for the Next-Email-Outreach worker (shallow embedding).

The definitions below are translated from the Python sources of the repository:

* `src/worker/validation.py`   — `is_within_schedule`, `check_daily_limit`,
  `check_sequence_delay`.
* `src/worker/campaign_processor.py` — rotation and selection in
  `process_single_campaign`, `process_email_content`,
  `update_after_successful_send`, `mark_email_as_failed`.
* `src/worker/database.py`     — `fetch_active_campaigns`, `create_email_log`.
* `src/receive.py`             — the inbound dedup/ingestion step of
  `fetch_emails_from_account` and the active-sequence selection in its send
  path.

Timestamps are modelled as natural numbers counting UTC seconds; one calendar
day is 86400 seconds.  Mongo documents become Lean structures whose fields are
the ones the verified claims touch; fields that none of the claims read
(subjects, bodies, engagement counters, user ids) are omitted.  Functions that
in Python return a `(bool, reason)` pair are modelled by their boolean
component only — the reason strings are observability output and never
branch-relevant.
-/

/-- Status values an email-log document can carry
(`status` field, see `database.py` line 96 and `validation.py` lines 63, 109). -/
inductive EmailStatus where
  | sent
  | delivered
  | opened
  | clicked
  | replied
  | failed
deriving DecidableEq

/-- Membership test `status in ["sent", "delivered", "opened", "clicked", "replied"]`
used by the daily-limit query (`validation.py` line 63) and the delay-gate
query (`validation.py` line 109). -/
def isSuccessStatus : EmailStatus → Bool
  | .sent => true
  | .delivered => true
  | .opened => true
  | .clicked => true
  | .replied => true
  | .failed => false

/-- An email-log document (`emaillogs` collection), with the fields the claims
read. `sentAt` is set at creation time (`database.py` line 98); `failedAt` and
`errorMessage` are set only by `mark_email_as_failed`. -/
structure EmailLog where
  contactId : Nat
  campaignId : Nat
  emailAccountId : Nat
  sequenceStep : Nat
  status : EmailStatus
  sentAt : Nat
  failedAt : Option Nat
  errorMessage : Option String
deriving DecidableEq

/-- One element of a campaign's `sequences` array, with the fields the worker
reads positionally: `delayDays` (default 0, `validation.py` line 98) and
`isActive` (default true, `campaign_processor.py` line 153). -/
structure SequenceStep where
  delayDays : Nat
  isActive : Bool
deriving DecidableEq

/-- A campaign document with the fields `process_single_campaign`
(`campaign_processor.py` lines 63-67) and `fetch_active_campaigns`
(`database.py` lines 37-47) read.  `id` stands for the Mongo `_id`, whose
ordering follows creation time. -/
structure Campaign where
  id : Nat
  isActive : Bool
  nextEmailAccountToUse : Nat
  nextContactToUse : Nat
  emailAccountIds : List Nat
  contactIds : List Nat
  sequences : List SequenceStep
deriving DecidableEq

/-- An email-account document with the fields `check_daily_limit` reads
(`validation.py` lines 67-71).  The Python `account.get` default of 50 for a
missing `dailyLimit` is folded into the field value. -/
structure EmailAccount where
  id : Nat
  dailyLimit : Nat
deriving DecidableEq

/-- A contact document with the fields the send orchestrator reads and writes
(`campaign_processor.py` lines 134, 280-294).  The `contact.get` default of 0
for a missing `timesContacted` is folded into the field value of a fresh
contact. -/
structure Contact where
  id : Nat
  timesContacted : Nat
  lastContacted : Option Nat
  lastSent : Option Nat
  emailStatus : String
  updatedAt : Option Nat
deriving DecidableEq

/-- The `sendingHours` sub-document of a campaign schedule, after the
`HH:MM` strings have been split into hour and minute integers
(`validation.py` lines 26-27). -/
structure SendingHours where
  startHour : Nat
  startMinute : Nat
  endHour : Nat
  endMinute : Nat
deriving DecidableEq

/-- The schedule sub-document of a campaign as read by `is_within_schedule`
(`validation.py` lines 9-11). `none` fields take the source defaults
(09:00-17:00, Monday-to-Friday) via `Option.getD`. -/
structure Schedule where
  sendingHours : Option SendingHours
  sendingDays : Option (List Nat)
deriving DecidableEq

/-- The current wall-clock time localized to the user's timezone, as obtained
from `datetime.now(user_tz)` in `validation.py` line 15.  `weekday` uses the
Python numbering 0 = Monday .. 6 = Sunday. -/
structure LocalTime where
  weekday : Nat
  hour : Nat
  minute : Nat
deriving DecidableEq

/-- Schedule-window evaluator, from `is_within_schedule` in
`validation.py` lines 5-49.  The `localNow` argument models the result of
`pytz.timezone(user_timezone)` followed by `datetime.now(user_tz)`: it is
`none` when the timezone string is unrecognized, in which case the
`pytz.UnknownTimeZoneError` propagates to the enclosing `except` block, which
returns `(False, "Error checking schedule: ...")` — there is no fallback to
UTC in this function.  Only the boolean of the `(bool, reason)` pair is
modelled. -/
def is_within_schedule (schedule : Schedule) (localNow : Option LocalTime) : Bool :=
  match localNow with
  | none => false
  | some now =>
    let sh := schedule.sendingHours.getD { startHour := 9, startMinute := 0, endHour := 17, endMinute := 0 }
    let sendingDays := schedule.sendingDays.getD [1, 2, 3, 4, 5]
    let jsWeekday := (now.weekday + 1) % 7
    if !(sendingDays.contains jsWeekday) then
      false
    else
      let currentMinutes := now.hour * 60 + now.minute
      let startMinutes := sh.startHour * 60 + sh.startMinute
      let endMinutes := sh.endHour * 60 + sh.endMinute
      if startMinutes ≤ endMinutes then
        decide (startMinutes ≤ currentMinutes ∧ currentMinutes ≤ endMinutes)
      else
        decide (startMinutes ≤ currentMinutes ∨ currentMinutes ≤ endMinutes)

/-- Count of this account's email-log entries for the UTC calendar day
starting at `today`, with a success status — the Mongo `count_documents`
query of `check_daily_limit` (`validation.py` lines 60-64).  `today` is the
midnight-UTC timestamp and `today + 86400` is `tomorrow`. -/
def sent_today_count (logs : List EmailLog) (accountId today : Nat) : Nat :=
  (logs.filter (fun l =>
    l.emailAccountId == accountId &&
    (decide (today ≤ l.sentAt) && decide (l.sentAt < today + 86400)) &&
    isSuccessStatus l.status)).length

/-- Daily-limit gate, from `check_daily_limit` in `validation.py`
lines 52-79.  `account` is the result of the `find_one` on `emailaccounts`;
a missing account yields `(False, "Email account not found")`.  Only the
boolean of the `(bool, reason)` pair is modelled. -/
def check_daily_limit (logs : List EmailLog) (account : Option EmailAccount)
    (accountId today : Nat) : Bool :=
  match account with
  | none => false
  | some a => sent_today_count logs accountId today < a.dailyLimit

/-- Predicate of the Mongo query inside `check_sequence_delay`
(`validation.py` lines 104-112): same contact, same campaign, given
sequence step, success status. -/
def matchesStepLog (contactId campaignId step : Nat) (l : EmailLog) : Bool :=
  l.contactId == contactId && l.campaignId == campaignId &&
  l.sequenceStep == step && isSuccessStatus l.status

/-- The `find_one(..., sort=[("sentAt", -1)])` of `check_sequence_delay`:
among the logs matching `matchesStepLog`, the one with the greatest `sentAt`
(the first document of the descending sort), or `none`. -/
def find_last_email (logs : List EmailLog) (contactId campaignId step : Nat) :
    Option EmailLog :=
  (logs.filter (matchesStepLog contactId campaignId step)).foldl
    (fun acc l =>
      match acc with
      | none => some l
      | some b => if b.sentAt < l.sentAt then some l else some b)
    none

/-- Sequence-delay gate, from `check_sequence_delay` in `validation.py`
lines 82-128.  `campaign` is the result of the `find_one` on `campaigns`;
`now` models `datetime.now(timezone.utc)`.  Note the source reads
`delay_days` from the raw `sequences` array at index `sequence_step` (the
step about to be sent, line 98), and returns `True` immediately when that
value is 0 (line 100), without looking for a prior log.  Only the boolean of
the `(bool, reason)` pair is modelled. -/
def check_sequence_delay (logs : List EmailLog) (campaign : Option Campaign)
    (contactId campaignId sequenceStep now : Nat) : Bool :=
  if sequenceStep = 0 then
    true
  else
    match campaign with
    | none => false
    | some camp =>
      match camp.sequences[sequenceStep]? with
      | none => false
      | some seq =>
        if seq.delayDays = 0 then
          true
        else
          match find_last_email logs contactId campaignId (sequenceStep - 1) with
          | none => false
          | some last => decide (seq.delayDays * 86400 ≤ now - last.sentAt)

/-- Error message written by `mark_email_as_failed`
(`campaign_processor.py` line 325). -/
def simulationFailedMsg : String := "Simulation failed"

/-- The email-log document inserted by `create_email_log` in `database.py`
lines 80-106, restricted to the modelled fields: it is created with
`status = "sent"` (optimistic) and `sentAt = now`, before the transport is
invoked. -/
def create_email_log (contactId campaignId emailAccountId sequenceStep now : Nat) :
    EmailLog :=
  { contactId := contactId
    campaignId := campaignId
    emailAccountId := emailAccountId
    sequenceStep := sequenceStep
    status := .sent
    sentAt := now
    failedAt := none
    errorMessage := none }

/-- The update applied by `mark_email_as_failed` in `campaign_processor.py`
lines 318-328 to the just-created log entry: `status = "failed"`,
`failedAt = now`, `errorMessage = "Simulation failed"`. -/
def mark_email_as_failed (l : EmailLog) (now : Nat) : EmailLog :=
  { l with status := .failed, failedAt := some now, errorMessage := some simulationFailedMsg }

/-- The contact update applied by `update_after_successful_send` in
`campaign_processor.py` lines 280-294: `timesContacted + 1`, timestamps and
`emailStatus = "sent"`. -/
def update_after_successful_send (c : Contact) (now : Nat) : Contact :=
  { c with
    timesContacted := c.timesContacted + 1
    lastContacted := some now
    lastSent := some now
    emailStatus := "sent"
    updatedAt := some now }

/-- State of one contact and its per-(contact, campaign) slice of the
`emaillogs` collection, as touched by the send orchestrator. -/
structure SendState where
  contact : Contact
  logs : List EmailLog
deriving DecidableEq

/-- The log-and-commit tail of `process_email_content`
(`campaign_processor.py` lines 191-209): a log entry is created with
`sequenceStep = timesContacted` (the step argument passed at line 159-160
is `contact.get('timesContacted', 0)` read at line 134), the transport is
invoked, and on success `update_after_successful_send` runs while on failure
`mark_email_as_failed` flips the log entry and the contact is left
untouched. -/
def process_send (s : SendState) (campaignId emailAccountId now : Nat)
    (success : Bool) : SendState :=
  let log := create_email_log s.contact.id campaignId emailAccountId
    s.contact.timesContacted now
  if success then
    { contact := update_after_successful_send s.contact now
      logs := s.logs ++ [log] }
  else
    { contact := s.contact
      logs := s.logs ++ [mark_email_as_failed log now] }

/-- One polling-cycle outcome for a fixed contact: either some gate
(schedule, daily limit, rotation landing elsewhere, exhaustion, delay,
inactive step) stopped the cycle before the send, or `process_send` ran with
the transport reporting `success`. -/
inductive CycleEvent where
  | skip
  | send (emailAccountId now : Nat) (success : Bool)
deriving DecidableEq

/-- One cycle of the orchestrator as observed by a fixed contact of a fixed
campaign. -/
def step_cycle (campaignId : Nat) (s : SendState) (e : CycleEvent) : SendState :=
  match e with
  | .skip => s
  | .send emailAccountId now success => process_send s campaignId emailAccountId now success

/-- A run of successive orchestrator cycles over one contact. -/
def run_cycles (campaignId : Nat) (s : SendState) (es : List CycleEvent) : SendState :=
  es.foldl (step_cycle campaignId) s

/-- Sequence steps of the successful log entries, in insertion order. -/
def successSteps (s : SendState) : List Nat :=
  (s.logs.filter (fun l => isSuccessStatus l.status)).map (fun l => l.sequenceStep)

/-- A fresh contact as the worker first sees it: `contact.get('timesContacted', 0)`
is 0 and no email has been logged. -/
def initSendState (contactId : Nat) : SendState :=
  { contact :=
      { id := contactId
        timesContacted := 0
        lastContacted := none
        lastSent := none
        emailStatus := "never-sent"
        updatedAt := none }
    logs := [] }

/-- One polling-cycle outcome as observed by a fixed email account: either
the cycle did not reach this account, or the orchestrator attempted a send
through it at time `now` for some contact/campaign/step. -/
inductive AccountEvent where
  | skip
  | send (contactId campaignId sequenceStep now : Nat) (success : Bool)
deriving DecidableEq

/-- One orchestrator cycle as observed by a fixed email account: the
daily-limit gate of `process_single_campaign` (`campaign_processor.py`
lines 111-116) runs before `process_email_content`, so a log entry is
inserted only when `check_daily_limit` passed against the current logs. -/
def step_account_cycle (a : EmailAccount) (today : Nat) (logs : List EmailLog)
    (e : AccountEvent) : List EmailLog :=
  match e with
  | .skip => logs
  | .send contactId campaignId sequenceStep now success =>
    if check_daily_limit logs (some a) a.id today then
      let log := create_email_log contactId campaignId a.id sequenceStep now
      if success then logs ++ [log] else logs ++ [mark_email_as_failed log now]
    else
      logs

/-- A run of successive orchestrator cycles over one email account's log
slice. -/
def run_account_cycles (a : EmailAccount) (today : Nat) (logs : List EmailLog)
    (es : List AccountEvent) : List EmailLog :=
  es.foldl (step_account_cycle a today) logs

/-- Sequence-step selection of the worker, from `process_single_campaign`
(`campaign_processor.py` lines 138-156): reject when
`timesContacted >= len(sequences)`, otherwise take `sequences[timesContacted]`
from the RAW array and reject when that element has `isActive` false. -/
def select_sequence_worker (sequences : List SequenceStep) (timesContacted : Nat) :
    Option SequenceStep :=
  match sequences[timesContacted]? with
  | none => none
  | some s => if s.isActive then some s else none

/-- Sequence-step selection of the `receive.py` send path (lines 1131-1143):
filter to `isActive` steps first, then index the filtered list at
`timesContacted`. -/
def select_sequence_receive (sequences : List SequenceStep) (timesContacted : Nat) :
    Option SequenceStep :=
  (sequences.filter (fun s => s.isActive))[timesContacted]?

/-- Account-ring cursor computed by `process_single_campaign`
(`campaign_processor.py` line 78): the stored cursor is advanced by one
modulo the ring length BEFORE any account is selected. -/
def rotated_account_index (c : Campaign) : Nat :=
  (c.nextEmailAccountToUse + 1) % c.emailAccountIds.length

/-- Contact-ring cursor computed by `process_single_campaign`
(`campaign_processor.py` line 85). -/
def rotated_contact_index (c : Campaign) : Nat :=
  (c.nextContactToUse + 1) % c.contactIds.length

/-- The campaign document after the rotation update persisted at
`campaign_processor.py` lines 92-98. -/
def rotate_campaign (c : Campaign) : Campaign :=
  { c with
    nextEmailAccountToUse := rotated_account_index c
    nextContactToUse := rotated_contact_index c }

/-- The account id `process_single_campaign` selects in one cycle
(`campaign_processor.py` lines 71-101): `none` when the campaign is missing
required data, otherwise `emailAccountIds[nextEmailAccountToUse]` AFTER the
cursor has been advanced. -/
def selected_account_id (c : Campaign) : Option Nat :=
  if c.emailAccountIds.isEmpty || c.contactIds.isEmpty || c.sequences.isEmpty then
    none
  else
    c.emailAccountIds[rotated_account_index c]?

/-- Descending `_id` order used by `fetch_active_campaigns`
(`database.py` line 45): `c` sorts no later than `d` when `d.id ≤ c.id`. -/
def newerOrEqual (c d : Campaign) : Prop := d.id ≤ c.id

instance : DecidableRel newerOrEqual := fun c d => Nat.decLe d.id c.id

instance : IsTotal Campaign newerOrEqual :=
  ⟨fun a b => (Nat.le_total b.id a.id).imp (fun h => h) (fun h => h)⟩

instance : IsTrans Campaign newerOrEqual :=
  ⟨fun _ _ _ hab hbc => Nat.le_trans hbc hab⟩

/-- The `find({isActive: true}).sort("_id", -1).limit(limit)` query of
`fetch_active_campaigns` (`database.py` lines 37-47): active campaigns,
newest `_id` first, truncated to `limit`.  `process_campaigns`
(`campaign_processor.py` line 15) calls it with limit 10 and iterates exactly
the returned list. -/
def fetch_active_campaigns (campaigns : List Campaign) (limit : Nat) : List Campaign :=
  ((campaigns.filter (fun c => c.isActive)).insertionSort newerOrEqual).take limit

/-- A stored `ReceivedEmail` document (`receivedemails` collection), with the
fields the dedup checks and the reply-stats update read
(`receive.py` lines 418-435, 476-502, 527). -/
structure ReceivedEmail where
  messageId : String
  emailAccountId : Nat
  fromAddr : String
  subject : String
  receivedAt : Nat
  isReply : Bool
  campaignId : Option Nat
deriving DecidableEq

/-- An inbound message as parsed from the mailbox
(`receive.py` lines 391-416): `messageId` is the `Message-ID` header
stripped of angle brackets, the empty string when the header is absent. -/
structure InboundMessage where
  messageId : String
  fromAddr : String
  subject : String
  receivedAt : Nat
deriving DecidableEq

/-- The mutable state the ingestion step of `fetch_emails_from_account`
touches: the stored received emails, and the number of
`stats.replied` increments applied to campaigns (`receive.py` line 531). -/
structure ReceiveState where
  received : List ReceivedEmail
  repliedIncrements : Nat
deriving DecidableEq

/-- Character-list version of `str.startswith`, used to build the substring
test below. -/
def startsWithChars : List Char → List Char → Bool
  | [], _ => true
  | _ :: _, [] => false
  | a :: as, b :: bs => a == b && startsWithChars as bs

/-- Character-list substring test, modelling Python's `needle in haystack`. -/
def containsChars (needle : List Char) : List Char → Bool
  | [] => startsWithChars needle []
  | b :: bs => startsWithChars needle (b :: bs) || containsChars needle bs

/-- The `is_likely_reply` heuristic of `receive.py` lines 469-470: any of the
indicators `re:`, `reply`, `response` occurs in the lowercased subject. -/
def subjectLooksLikeReply (subject : String) : Bool :=
  let cs := subject.toLower.toList
  containsChars ("re:".toList) cs ||
  containsChars ("reply".toList) cs ||
  containsChars ("response".toList) cs

/-- The duplicate lookup of `receive.py` lines 418-435: first by
`(messageId, emailAccountId)` when the message carries a `Message-ID`, then,
when that found nothing and both `from` and `subject` are non-empty, by
`(from, subject, emailAccountId, receivedAt)`. -/
def dedup_existing (accountId : Nat) (m : InboundMessage)
    (received : List ReceivedEmail) : Option ReceivedEmail :=
  let byMessageId :=
    if m.messageId != "" then
      received.find? (fun r =>
        r.messageId == m.messageId && r.emailAccountId == accountId)
    else
      none
  match byMessageId with
  | some r => some r
  | none =>
    if m.fromAddr != "" && m.subject != "" then
      received.find? (fun r =>
        r.fromAddr == m.fromAddr && r.subject == m.subject &&
        r.emailAccountId == accountId && r.receivedAt == m.receivedAt)
    else
      none

/-- The `ReceivedEmail` document inserted for one inbound message
(`receive.py` lines 476-505).  `sentEmail` models the result of
`find_related_sent_email` — `none` when no prior send matched, otherwise the
matched send's `campaignId` field; `isReply` is the stored
`is_reply or is_likely_reply` of line 497. -/
def received_doc (sentEmail : Option (Option Nat)) (accountId : Nat)
    (m : InboundMessage) : ReceivedEmail :=
  { messageId := m.messageId
    emailAccountId := accountId
    fromAddr := m.fromAddr
    subject := m.subject
    receivedAt := m.receivedAt
    isReply := sentEmail.isSome || subjectLooksLikeReply m.subject
    campaignId := sentEmail.getD none }

/-- The number the matched campaign's `stats.replied` is incremented by for
one inserted message (`receive.py` lines 527-531): 1 exactly when a prior
sent email matched (`is_reply`) and it carried a campaign id. -/
def replied_increment (sentEmail : Option (Option Nat)) : Nat :=
  if (sentEmail.getD none).isSome && sentEmail.isSome then 1 else 0

/-- Ingestion of one inbound message by `fetch_emails_from_account`
(`receive.py` lines 418-537): duplicate check first (`continue` when a
duplicate exists, lines 437-441), then the ignore-keyword filter
(lines 447-450), then the insert (line 505) and the `stats.replied`
increment (lines 527-531).  `ignore` models `should_ignore_email` applied to
the user's keyword configuration. -/
def process_inbound (ignore : InboundMessage → Bool)
    (sentEmail : Option (Option Nat)) (accountId : Nat) (m : InboundMessage)
    (s : ReceiveState) : ReceiveState :=
  match dedup_existing accountId m s.received with
  | some _ => s
  | none =>
    if ignore m then
      s
    else
      { received := s.received ++ [received_doc sentEmail accountId m]
        repliedIncrements := s.repliedIncrements + replied_increment sentEmail }

/-- Schedule of the spec's Scenario C: sendingHours 21:00-05:00 (overnight),
sendingDays containing only Friday (5 in the JavaScript numbering
0 = Sunday .. 6 = Saturday). -/
def scheduleScenarioC : Schedule :=
  { sendingHours := some { startHour := 21, startMinute := 0, endHour := 5, endMinute := 0 }
    sendingDays := some [5] }

/-- Schedule whose window is open at every hour of every day. -/
def scheduleAlwaysOpen : Schedule :=
  { sendingHours := some { startHour := 0, startMinute := 0, endHour := 23, endMinute := 59 }
    sendingDays := some [0, 1, 2, 3, 4, 5, 6] }

/-- Campaign of the spec's Scenario A: two accounts (ids 10 and 20), stored
rotation cursor 0, one contact, one active sequence step. -/
def campaignScenarioA : Campaign :=
  { id := 1
    isActive := true
    nextEmailAccountToUse := 0
    nextContactToUse := 0
    emailAccountIds := [10, 20]
    contactIds := [100]
    sequences := [{ delayDays := 0, isActive := true }] }

/-- Campaign whose second sequence step (the one at target index 1) has
`delayDays = 0`. -/
def campaignDelayZero : Campaign :=
  { id := 2
    isActive := true
    nextEmailAccountToUse := 0
    nextContactToUse := 0
    emailAccountIds := [10]
    contactIds := [100]
    sequences := [{ delayDays := 3, isActive := true }, { delayDays := 0, isActive := true }] }

/-- Campaign whose second sequence step has a positive `delayDays` of 5. -/
def campaignDelayPos : Campaign :=
  { id := 3
    isActive := true
    nextEmailAccountToUse := 0
    nextContactToUse := 0
    emailAccountIds := [10]
    contactIds := [100]
    sequences := [{ delayDays := 0, isActive := true }, { delayDays := 5, isActive := true }] }

/-- A successful step-0 log for contact 100 in campaign 3, sent at time 0. -/
def logStep0 : EmailLog :=
  { contactId := 100
    campaignId := 3
    emailAccountId := 10
    sequenceStep := 0
    status := .sent
    sentAt := 0
    failedAt := none
    errorMessage := none }

/-- Sequence list whose first step is inactive and whose second is active. -/
def seqsWithInactiveFirst : List SequenceStep :=
  [{ delayDays := 1, isActive := false }, { delayDays := 2, isActive := true }]

/-- An inbound message carrying a `Message-ID`. -/
def inboundW : InboundMessage :=
  { messageId := "mid-1", fromAddr := "alice at example", subject := "hello", receivedAt := 5 }

/-- A minimal active campaign with a given `_id`, for the fetch-limit
witness. -/
def mkCamp (n : Nat) : Campaign :=
  { id := n
    isActive := true
    nextEmailAccountToUse := 0
    nextContactToUse := 0
    emailAccountIds := []
    contactIds := []
    sequences := [] }

/-- A pool of eleven active campaigns with ids 0 .. 10. -/
def campL : List Campaign := (List.range 11).map mkCamp

/-- C6 (counterexample): with sendingHours 21:00-05:00, sendingDays = [Friday]
and local time Saturday 01:00 (Python weekday 5), `is_within_schedule`
returns false — the claim states the evaluator treats the post-midnight tail
as the previous day's window and returns true, but the day check at
`validation.py` lines 18-23 always uses the current weekday. -/
theorem c6_counterexample :
    is_within_schedule scheduleScenarioC
      (some { weekday := 5, hour := 1, minute := 0 }) = false := by
  decide

/-- C6 (amended): the schedule evaluator tests day membership with the
current local weekday (mapped to the JavaScript numbering) in every case;
whenever that weekday is not in `sendingDays`, the evaluator returns
not-in-window, with no previous-day correction for the post-midnight tail of
an overnight window. -/
theorem c6_amended (sch : Schedule) (now : LocalTime)
    (h : (sch.sendingDays.getD [1, 2, 3, 4, 5]).contains ((now.weekday + 1) % 7) = false) :
    is_within_schedule sch (some now) = false := by
  simp only [is_within_schedule, h, Bool.not_false, if_true]

/-- C6 witness: Sunday under the default Monday-to-Friday sending days is
rejected, via `c6_amended`. -/
theorem c6_amended_witness :
    ((Schedule.mk none none).sendingDays.getD [1, 2, 3, 4, 5]).contains
        (((LocalTime.mk 6 10 0).weekday + 1) % 7) = false ∧
    is_within_schedule (Schedule.mk none none) (some (LocalTime.mk 6 10 0)) = false :=
  ⟨by decide, c6_amended (Schedule.mk none none) (LocalTime.mk 6 10 0) (by decide)⟩

/-- C7 (counterexample): a schedule that is open at the current UTC time
(weekday Wednesday, 12:00) still yields false when the timezone is
unrecognized — `pytz.timezone` raises inside the `try` of
`is_within_schedule` and the `except` at `validation.py` lines 48-49 returns
`(False, ...)`; the claim states the evaluator recovers by evaluating in UTC
and returns true. -/
theorem c7_counterexample :
    is_within_schedule scheduleAlwaysOpen
      (some { weekday := 2, hour := 12, minute := 0 }) = true ∧
    is_within_schedule scheduleAlwaysOpen none = false := by
  decide

/-- C7 (amended): an unrecognized user timezone makes the worker's
`is_within_schedule` fail closed: even for a schedule whose window is open at
the current time, the evaluator returns not-in-window instead of falling back
to UTC.  (The UTC fallback exists only in `receive.py`'s separate
`can_send_email_now` variant.) -/
theorem c7_amended (sch : Schedule) (now : LocalTime)
    (_h : is_within_schedule sch (some now) = true) :
    is_within_schedule sch none = false := by
  rfl

/-- C7 witness: the always-open schedule is open on Monday 10:30, yet an
unrecognized timezone yields not-in-window, via `c7_amended`. -/
theorem c7_amended_witness :
    is_within_schedule scheduleAlwaysOpen (some (LocalTime.mk 0 10 30)) = true ∧
    is_within_schedule scheduleAlwaysOpen none = false :=
  ⟨by decide, c7_amended scheduleAlwaysOpen (LocalTime.mk 0 10 30) (by decide)⟩

/-- C5 (counterexample): in Scenario A (two accounts [10, 20], stored cursor
0) the first selection of `process_single_campaign` picks account id 20 —
the element at ring position 1 — because line 78 of
`campaign_processor.py` advances the cursor before any account is read; the
claim states the first selection picks account[0] (id 10). -/
theorem c5_counterexample :
    selected_account_id campaignScenarioA = some 20 ∧
    campaignScenarioA.emailAccountIds[0]? = some 10 := by
  decide

/-- C5 (amended): for a campaign with non-empty accounts, contacts and
sequences, the selected account is the ring element at index
`(storedCursor + 1) % ringLength` — the cursor is advanced before use — and
the following cycle (starting from the persisted rotated campaign) selects
the element at `(storedCursor + 2) % ringLength`; in Scenario A the first
selection picks account[1] and the second picks account[0]. -/
theorem c5_amended (c : Campaign) (h1 : c.emailAccountIds ≠ [])
    (h2 : c.contactIds ≠ []) (h3 : c.sequences ≠ []) :
    selected_account_id c =
      c.emailAccountIds[(c.nextEmailAccountToUse + 1) % c.emailAccountIds.length]? ∧
    selected_account_id (rotate_campaign c) =
      c.emailAccountIds[(c.nextEmailAccountToUse + 2) % c.emailAccountIds.length]? := by
  constructor
  · simp [selected_account_id, rotated_account_index, List.isEmpty_iff, h1, h2, h3]
  · simp [selected_account_id, rotate_campaign, rotated_account_index,
      List.isEmpty_iff, h1, h2, h3, Nat.mod_add_mod]

/-- C5 witness: Scenario A evaluated through `c5_amended` — the first cycle
selects account id 20 (ring position 1), the second selects id 10 (ring
position 0). -/
theorem c5_amended_witness :
    selected_account_id campaignScenarioA = some 20 ∧
    selected_account_id (rotate_campaign campaignScenarioA) = some 10 := by
  have h := c5_amended campaignScenarioA (by decide) (by decide) (by decide)
  exact ⟨h.1.trans (by decide), h.2.trans (by decide)⟩

/-- C4 (counterexample): with a sequence list whose first step is inactive
and whose second is active, a contact with `timesContacted = 0` gets NO step
from the worker (`process_single_campaign` indexes the raw array at position
0 and rejects the inactive element, `campaign_processor.py` lines 151-156),
while active-filtered indexing — which the claim attributes to the selection
— would yield the active second step, as `receive.py`'s send path does. -/
theorem c4_counterexample :
    select_sequence_worker seqsWithInactiveFirst 0 = none ∧
    select_sequence_receive seqsWithInactiveFirst 0 =
      some { delayDays := 2, isActive := true } := by
  decide

/-- C4 (amended): the worker's campaign processor indexes the RAW sequences
array at position `timesContacted` and rejects the attempt when that element
is inactive — whatever it selects is the raw-indexed element and is active;
only `receive.py`'s send path indexes the active-filtered list, and whatever
it selects is an active member of the sequence list. -/
theorem c4_amended (seqs : List SequenceStep) (tc : Nat) (s : SequenceStep) :
    (select_sequence_worker seqs tc = some s →
      seqs[tc]? = some s ∧ s.isActive = true) ∧
    (select_sequence_receive seqs tc = some s →
      s ∈ seqs ∧ s.isActive = true) := by
  constructor
  · intro h
    cases hg : seqs[tc]? with
    | none => simp only [select_sequence_worker, hg] at h; exact Option.noConfusion h
    | some x =>
      simp only [select_sequence_worker, hg] at h
      cases hA : x.isActive with
      | false => rw [hA] at h; simp at h
      | true =>
        rw [hA] at h
        simp at h
        exact ⟨by rw [h], by rw [← h]; exact hA⟩
  · intro h
    have hmem : s ∈ seqs.filter (fun s => s.isActive) := List.getElem?_mem h
    have := List.mem_filter.mp hmem
    exact ⟨this.1, this.2⟩

/-- C4 witness: the worker's selection at position 1 of the
inactive-first list returns the raw element there, which is active, via
`c4_amended`. -/
theorem c4_amended_witness :
    seqsWithInactiveFirst[1]? = some { delayDays := 2, isActive := true } ∧
    SequenceStep.isActive { delayDays := 2, isActive := true } = true :=
  (c4_amended seqsWithInactiveFirst 1 { delayDays := 2, isActive := true }).1 (by decide)

/-- C2 (counterexample): with target step index 1, `delayDays = 0` on the
step about to be sent and NO successful step-0 log at all, the delay gate
returns true (`validation.py` lines 100-101 return before the prior-log
lookup) — the claim states the gate passes only when a prior step-0 log
exists, for every value of delayDays including 0. -/
theorem c2_counterexample :
    check_sequence_delay [] (some campaignDelayZero) 100 2 1 0 = true := by
  decide

/-- C2 (amended): for a target step index above 0 that is inside the raw
sequences array, the gate reads `delayDays` from the RAW array at the target
index itself (the step about to be sent, not the prior step); when that value
is 0 it passes unconditionally with no prior-log check, and when it is
positive it passes exactly when a most-recent successful log for (contact,
campaign, targetStepIndex - 1) exists whose age `now - sentAt` is at least
`delayDays` days — failing closed when no such log exists. -/
theorem c2_amended (logs : List EmailLog) (camp : Campaign)
    (contactId campaignId sequenceStep now : Nat) (seq : SequenceStep)
    (hstep : 0 < sequenceStep) (hseq : camp.sequences[sequenceStep]? = some seq) :
    (seq.delayDays = 0 →
      check_sequence_delay logs (some camp) contactId campaignId sequenceStep now = true) ∧
    (0 < seq.delayDays →
      (check_sequence_delay logs (some camp) contactId campaignId sequenceStep now = true ↔
        ∃ last, find_last_email logs contactId campaignId (sequenceStep - 1) = some last ∧
          seq.delayDays * 86400 ≤ now - last.sentAt)) := by
  have hne : sequenceStep ≠ 0 := Nat.pos_iff_ne_zero.mp hstep
  constructor
  · intro h0
    simp only [check_sequence_delay, if_neg hne, hseq, if_pos h0]
  · intro hpos
    have hdne : seq.delayDays ≠ 0 := Nat.pos_iff_ne_zero.mp hpos
    simp only [check_sequence_delay, if_neg hne, hseq, if_neg hdne]
    cases hfind : find_last_email logs contactId campaignId (sequenceStep - 1) with
    | none => simp
    | some last => simp

/-- C2 witness: target step 1 of `campaignDelayPos` has `delayDays = 5`; with
a successful step-0 log sent at time 0 and `now` five days later, the gate
passes, via `c2_amended`. -/
theorem c2_amended_witness :
    (0 : Nat) < 1 ∧
    campaignDelayPos.sequences[1]? = some { delayDays := 5, isActive := true } ∧
    (check_sequence_delay [logStep0] (some campaignDelayPos) 100 3 1 432000 = true ↔
      ∃ last, find_last_email [logStep0] 100 3 0 = some last ∧
        5 * 86400 ≤ 432000 - last.sentAt) :=
  ⟨by decide, by decide,
    (c2_amended [logStep0] campaignDelayPos 100 3 1 432000
      { delayDays := 5, isActive := true } (by decide) (by decide)).2 (by decide)⟩

/-- Helper: a successful send appends its step — the contact's current
`timesContacted` — to the successful-steps list. -/
theorem successSteps_process_send_true (s : SendState)
    (campaignId emailAccountId now : Nat) :
    successSteps (process_send s campaignId emailAccountId now true) =
      successSteps s ++ [s.contact.timesContacted] := by
  simp [process_send, successSteps, List.filter_append, create_email_log, isSuccessStatus]

/-- Helper: a failed send leaves the successful-steps list unchanged (the
appended log entry carries `status = failed`). -/
theorem successSteps_process_send_false (s : SendState)
    (campaignId emailAccountId now : Nat) :
    successSteps (process_send s campaignId emailAccountId now false) =
      successSteps s := by
  simp [process_send, successSteps, List.filter_append, mark_email_as_failed,
    create_email_log, isSuccessStatus]

/-- Helper: one orchestrator cycle for a fixed contact preserves the
sequence-ordering invariant "the successful log steps, in insertion order,
are exactly 0, 1, ..., timesContacted - 1". -/
theorem step_cycle_preserves_successSteps (campaignId : Nat) (s : SendState)
    (e : CycleEvent) (h : successSteps s = List.range s.contact.timesContacted) :
    successSteps (step_cycle campaignId s e) =
      List.range (step_cycle campaignId s e).contact.timesContacted := by
  cases e with
  | skip => exact h
  | send emailAccountId now success =>
    cases success with
    | false =>
      show successSteps (process_send s campaignId emailAccountId now false) =
        List.range (process_send s campaignId emailAccountId now false).contact.timesContacted
      rw [successSteps_process_send_false, h]
      rfl
    | true =>
      show successSteps (process_send s campaignId emailAccountId now true) =
        List.range (process_send s campaignId emailAccountId now true).contact.timesContacted
      rw [successSteps_process_send_true, h,
        show (process_send s campaignId emailAccountId now true).contact.timesContacted =
          s.contact.timesContacted + 1 from rfl,
        List.range_succ]

/-- Helper: the sequence-ordering invariant holds along any run of
orchestrator cycles. -/
theorem run_cycles_invariant (campaignId : Nat) (es : List CycleEvent)
    (s : SendState) (h : successSteps s = List.range s.contact.timesContacted) :
    successSteps (run_cycles campaignId s es) =
      List.range (run_cycles campaignId s es).contact.timesContacted := by
  induction es generalizing s with
  | nil => exact h
  | cons e es ih =>
    simp only [run_cycles, List.foldl_cons]
    exact ih (step_cycle campaignId s e)
      (step_cycle_preserves_successSteps campaignId s e h)

/-- C1: starting from a fresh contact (timesContacted 0, no logs), after any
run of orchestrator cycles the successful email-log steps for the contact
are, in insertion order, exactly `List.range timesContacted` — i.e. strictly
increasing with no repeats and no gaps starting at 0: the step logged on a
send is always the contact's current `timesContacted`
(`campaign_processor.py` lines 134, 159-160, 192-196), and `timesContacted`
advances by exactly 1 only in `update_after_successful_send`
(lines 280-294). -/
theorem c1_sequence_ordering (contactId campaignId : Nat) (es : List CycleEvent) :
    successSteps (run_cycles campaignId (initSendState contactId) es) =
      List.range
        (run_cycles campaignId (initSendState contactId) es).contact.timesContacted :=
  run_cycles_invariant campaignId es (initSendState contactId)
    (by simp [successSteps, initSendState])

/-- Helper: one account-observed orchestrator cycle keeps the day's success
count at or below the daily limit, because `check_daily_limit` is consulted
before any log is inserted. -/
theorem step_account_cycle_le (a : EmailAccount) (today : Nat)
    (logs : List EmailLog) (e : AccountEvent)
    (h : sent_today_count logs a.id today ≤ a.dailyLimit) :
    sent_today_count (step_account_cycle a today logs e) a.id today ≤ a.dailyLimit := by
  cases e with
  | skip => exact h
  | send contactId campaignId sequenceStep now success =>
    show sent_today_count
      (if check_daily_limit logs (some a) a.id today then _ else logs) a.id today ≤ _
    by_cases hg : check_daily_limit logs (some a) a.id today = true
    · rw [if_pos hg]
      have hlt : sent_today_count logs a.id today < a.dailyLimit := by
        simpa [check_daily_limit] using hg
      cases success with
      | false =>
        simp only [Bool.false_eq_true, if_neg Bool.false_ne_true,
          sent_today_count, List.filter_append, List.length_append,
          mark_email_as_failed, create_email_log, isSuccessStatus,
          List.filter_cons, List.filter_nil, Bool.and_false, List.length_nil]
        simpa [sent_today_count] using h
      | true =>
        rw [if_pos rfl]
        have h1 : (List.filter (fun l =>
            l.emailAccountId == a.id &&
            (decide (today ≤ l.sentAt) && decide (l.sentAt < today + 86400)) &&
            isSuccessStatus l.status)
            [create_email_log contactId campaignId a.id sequenceStep now]).length ≤ 1 := by
          simpa using List.length_filter_le (fun l =>
            l.emailAccountId == a.id &&
            (decide (today ≤ l.sentAt) && decide (l.sentAt < today + 86400)) &&
            isSuccessStatus l.status) [create_email_log contactId campaignId a.id sequenceStep now]
        have h2 : sent_today_count
            (logs ++ [create_email_log contactId campaignId a.id sequenceStep now]) a.id today =
            sent_today_count logs a.id today + (List.filter (fun l =>
              l.emailAccountId == a.id &&
              (decide (today ≤ l.sentAt) && decide (l.sentAt < today + 86400)) &&
              isSuccessStatus l.status)
              [create_email_log contactId campaignId a.id sequenceStep now]).length := by
          simp [sent_today_count, List.filter_append]
        omega
    · rw [if_neg hg]
      exact h

/-- Helper: the daily-cap invariant holds along any run of
account-observed cycles. -/
theorem run_account_cycles_le (a : EmailAccount) (today : Nat)
    (es : List AccountEvent) (logs : List EmailLog)
    (h : sent_today_count logs a.id today ≤ a.dailyLimit) :
    sent_today_count (run_account_cycles a today logs es) a.id today ≤ a.dailyLimit := by
  induction es generalizing logs with
  | nil => exact h
  | cons e es ih =>
    simp only [run_account_cycles, List.foldl_cons]
    exact ih (step_account_cycle a today logs e) (step_account_cycle_le a today logs e h)

/-- C3: the daily-limit gate returns within-limit exactly when the count of
the account's success-status log entries for the UTC day is strictly below
`dailyLimit` (`validation.py` lines 60-76), and — because
`process_single_campaign` consults the gate before inserting any log
(`campaign_processor.py` lines 111-116) — along any run of orchestrator
cycles starting from an empty log slice the account's per-day success count
never exceeds `dailyLimit`. -/
theorem c3_daily_cap (a : EmailAccount) (today : Nat) (logs : List EmailLog)
    (es : List AccountEvent) :
    (check_daily_limit logs (some a) a.id today = true ↔
      sent_today_count logs a.id today < a.dailyLimit) ∧
    sent_today_count (run_account_cycles a today [] es) a.id today ≤ a.dailyLimit :=
  ⟨by simp [check_daily_limit],
    run_account_cycles_le a today es [] (by simp [sent_today_count])⟩

/-- C3 witness: a concrete account with limit 1, evaluated through
`c3_daily_cap` on a two-send run — the gate passes on the empty slice, and
the day count after two attempted sends is still at most 1. -/
theorem c3_daily_cap_witness :
    (check_daily_limit [] (some (EmailAccount.mk 10 1)) 10 0 = true ↔
      sent_today_count [] 10 0 < 1) ∧
    sent_today_count
      (run_account_cycles (EmailAccount.mk 10 1) 0 []
        [AccountEvent.send 100 1 0 5 true, AccountEvent.send 101 1 0 6 true]) 10 0 ≤ 1 :=
  c3_daily_cap (EmailAccount.mk 10 1) 0 [] [AccountEvent.send 100 1 0 5 true, AccountEvent.send 101 1 0 6 true]

/-- C8: when the transport reports failure, the orchestrator leaves the
contact document untouched (no `timesContacted` increment, no
`lastContacted`/`lastSent` mutation) and appends exactly the intent log entry
flipped to `status = failed` with `failedAt = now` and the error message,
matching `process_email_content` lines 203-214 and `mark_email_as_failed`
lines 318-328 of `campaign_processor.py`; the contact therefore remains
selectable with the same step on the next cycle. -/
theorem c8_failure_commit (s : SendState) (campaignId emailAccountId now : Nat) :
    (process_send s campaignId emailAccountId now false).contact = s.contact ∧
    ∃ log, (process_send s campaignId emailAccountId now false).logs = s.logs ++ [log] ∧
      log.status = EmailStatus.failed ∧ log.failedAt = some now ∧
      log.errorMessage = some simulationFailedMsg ∧
      log.sequenceStep = s.contact.timesContacted :=
  ⟨rfl,
    ⟨mark_email_as_failed
        (create_email_log s.contact.id campaignId emailAccountId
          s.contact.timesContacted now) now,
      rfl, rfl, rfl, rfl, rfl⟩⟩

/-- Helper: `find?` over an appended list defers to the back when the front
finds nothing. -/
theorem find?_append_of_none {α : Type} (p : α → Bool) (l1 l2 : List α)
    (h : l1.find? p = none) : (l1 ++ l2).find? p = l2.find? p := by
  induction l1 with
  | nil => rfl
  | cons a l ih =>
    rw [List.cons_append, List.find?] at *
    cases hpa : p a with
    | true => rw [hpa] at h; simp at h
    | false => rw [hpa] at h; exact ih h

/-- Helper: when the duplicate lookup finds an existing document, ingestion
is a no-op (`continue` at `receive.py` line 441). -/
theorem process_inbound_of_dup (ignore : InboundMessage → Bool)
    (sentEmail : Option (Option Nat)) (accountId : Nat) (m : InboundMessage)
    (t : ReceiveState) (r : ReceivedEmail)
    (hdup : dedup_existing accountId m t.received = some r) :
    process_inbound ignore sentEmail accountId m t = t := by
  unfold process_inbound
  rw [hdup]

/-- C9: reply ingestion is idempotent per (messageId, account): for a message
that carries a `Message-ID`, processing it a second time leaves the state
unchanged — the duplicate check of `receive.py` lines 418-441 runs before
any insert, so the re-processing discards the message without inserting a
document or incrementing reply stats — and when the message was not a
duplicate and not ignored, the two processings together store exactly one
`ReceivedEmail` with that (messageId, account). -/
theorem c9_idempotent_ingestion (ignore : InboundMessage → Bool)
    (sentEmail : Option (Option Nat)) (accountId : Nat) (m : InboundMessage)
    (s : ReceiveState) (h : m.messageId ≠ "") :
    process_inbound ignore sentEmail accountId m
        (process_inbound ignore sentEmail accountId m s) =
      process_inbound ignore sentEmail accountId m s ∧
    (dedup_existing accountId m s.received = none → ignore m = false →
      (process_inbound ignore sentEmail accountId m
          (process_inbound ignore sentEmail accountId m s)).received.countP
        (fun r => r.messageId == m.messageId && r.emailAccountId == accountId) = 1) := by
  have hbne : (m.messageId != "") = true := bne_iff_ne.mpr h
  cases hd : dedup_existing accountId m s.received with
  | some r =>
    have hps : process_inbound ignore sentEmail accountId m s = s :=
      process_inbound_of_dup ignore sentEmail accountId m s r hd
    constructor
    · rw [hps]
      exact hps
    · intro hn
      exact absurd hn (by simp)
  | none =>
    have hfind : s.received.find?
        (fun r => r.messageId == m.messageId && r.emailAccountId == accountId) = none := by
      cases hf : s.received.find?
          (fun r => r.messageId == m.messageId && r.emailAccountId == accountId) with
      | none => rfl
      | some r =>
        have hcontra : dedup_existing accountId m s.received = some r := by
          simp [dedup_existing, hbne, hf]
        rw [hd] at hcontra
        exact Option.noConfusion hcontra
    cases hig : ignore m with
    | true =>
      have hps : process_inbound ignore sentEmail accountId m s = s := by
        simp [process_inbound, hd, hig]
      constructor
      · rw [hps]
        exact hps
      · intro _ hfalse
        exact absurd hfalse (by simp)
    | false =>
      have hq : ((received_doc sentEmail accountId m).messageId == m.messageId &&
          (received_doc sentEmail accountId m).emailAccountId == accountId) = true := by
        simp [received_doc]
      have hrec : (process_inbound ignore sentEmail accountId m s).received =
          s.received ++ [received_doc sentEmail accountId m] := by
        simp [process_inbound, hd, hig]
      have hfind2 : ((process_inbound ignore sentEmail accountId m s).received).find?
          (fun r => r.messageId == m.messageId && r.emailAccountId == accountId) =
          some (received_doc sentEmail accountId m) := by
        rw [hrec, find?_append_of_none _ _ _ hfind, List.find?, hq]
      have hd2 : dedup_existing accountId m
          (process_inbound ignore sentEmail accountId m s).received =
          some (received_doc sentEmail accountId m) := by
        simp [dedup_existing, hbne, hfind2]
      have hidem : process_inbound ignore sentEmail accountId m
          (process_inbound ignore sentEmail accountId m s) =
          process_inbound ignore sentEmail accountId m s :=
        process_inbound_of_dup ignore sentEmail accountId m _
          (received_doc sentEmail accountId m) hd2
      constructor
      · exact hidem
      · intro _ _
        rw [hidem, hrec, List.countP_append]
        have h0 : s.received.countP
            (fun r => r.messageId == m.messageId && r.emailAccountId == accountId) = 0 :=
          List.countP_eq_zero.mpr (fun x hx => by
            have := List.find?_eq_none.mp hfind x hx
            simpa using this)
        simp [h0, List.countP_cons, hq]

/-- C9 witness: the concrete message `inboundW` fed twice into an empty
store through `c9_idempotent_ingestion` — the second processing is a no-op
and exactly one matching document is stored. -/
theorem c9_witness :
    inboundW.messageId ≠ "" ∧
    process_inbound (fun _ => false) none 7 inboundW
        (process_inbound (fun _ => false) none 7 inboundW
          { received := [], repliedIncrements := 0 }) =
      process_inbound (fun _ => false) none 7 inboundW
        { received := [], repliedIncrements := 0 } ∧
    (process_inbound (fun _ => false) none 7 inboundW
        (process_inbound (fun _ => false) none 7 inboundW
          { received := [], repliedIncrements := 0 })).received.countP
      (fun r => r.messageId == inboundW.messageId && r.emailAccountId == 7) = 1 := by
  have hmain := c9_idempotent_ingestion (fun _ => false) none 7 inboundW
    { received := [], repliedIncrements := 0 } (by decide)
  exact ⟨by decide, hmain.1, hmain.2 (by decide) rfl⟩

/-- C10: each polling cycle fetches at most 10 campaigns, all of them active;
when more than 10 campaigns are active exactly 10 are fetched; and every
active campaign left out of the fetch has an `_id` no greater than every
fetched campaign's — the query sorts by descending `_id` and truncates
(`database.py` lines 43-45), and `process_campaigns` iterates exactly the
returned list (`campaign_processor.py` lines 15-22), so older active
campaigns are never attempted in that cycle. -/
theorem c10_fetch_limit_recency (campaigns : List Campaign) :
    (fetch_active_campaigns campaigns 10).length ≤ 10 ∧
    (∀ c ∈ fetch_active_campaigns campaigns 10, c.isActive = true) ∧
    (10 < (campaigns.filter (fun c => c.isActive)).length →
      (fetch_active_campaigns campaigns 10).length = 10) ∧
    (∀ d ∈ campaigns.filter (fun c => c.isActive),
      d ∉ fetch_active_campaigns campaigns 10 →
      ∀ c ∈ fetch_active_campaigns campaigns 10, d.id ≤ c.id) := by
  have hperm := List.perm_insertionSort newerOrEqual
    (campaigns.filter (fun c => c.isActive))
  refine ⟨List.length_take_le _ _, ?_, ?_, ?_⟩
  · intro c hc
    have hcs : c ∈ (campaigns.filter (fun c => c.isActive)).insertionSort newerOrEqual :=
      List.mem_of_mem_take hc
    have hcf : c ∈ campaigns.filter (fun c => c.isActive) := hperm.mem_iff.mp hcs
    simpa using (List.mem_filter.mp hcf).2
  · intro hgt
    have hlen : ((campaigns.filter (fun c => c.isActive)).insertionSort
        newerOrEqual).length = (campaigns.filter (fun c => c.isActive)).length :=
      hperm.length_eq
    simp only [fetch_active_campaigns, List.length_take, hlen]
    omega
  · intro d hdf hdnot c hc
    simp only [fetch_active_campaigns] at hdnot hc
    have hds : d ∈ (campaigns.filter (fun c => c.isActive)).insertionSort newerOrEqual :=
      hperm.mem_iff.mpr hdf
    have hsplit : d ∈ ((campaigns.filter (fun c => c.isActive)).insertionSort
          newerOrEqual).take 10 ++
        ((campaigns.filter (fun c => c.isActive)).insertionSort newerOrEqual).drop 10 := by
      rw [List.take_append_drop]
      exact hds
    have hdd : d ∈ ((campaigns.filter (fun c => c.isActive)).insertionSort
        newerOrEqual).drop 10 := by
      rcases List.mem_append.mp hsplit with hin | hin
      · exact absurd hin hdnot
      · exact hin
    exact List.Sorted.rel_of_mem_take_of_mem_drop
      (List.sorted_insertionSort newerOrEqual (campaigns.filter (fun c => c.isActive)))
      hc hdd

/-- C10 witness: eleven active campaigns with ids 0 .. 10, evaluated through
`c10_fetch_limit_recency` — exactly 10 are fetched, the excluded campaign
with id 0 is older than the fetched campaign with id 10. -/
theorem c10_fetch_witness :
    (fetch_active_campaigns campL 10).length = 10 ∧
    (mkCamp 0).id ≤ (mkCamp 10).id :=
  ⟨(c10_fetch_limit_recency campL).2.2.1 (by decide),
    (c10_fetch_limit_recency campL).2.2.2 (mkCamp 0) (by decide) (by decide)
      (mkCamp 10) (by decide)⟩
